import Mathlib

/-!
Shallow embedding of the fire/smoke detection backend (services/weather_context.py,
services/batch_video_processor.py, services/notifications.py, and the alert path of
app.py), together with theorems settling the specification claims about it.

Conventions of the embedding:
* Python floats are modelled as rationals (`ℚ`); Python ints as `Nat`/`Int`.
* Network and clock effects (the Roboflow HTTP call, the OpenWeather fetch,
  `datetime.now()`, the thread pool) are parameters: the inference call is a
  function argument, the weather snapshot and the local hour are passed in, and
  the order in which pool workers complete is an explicit list of indices.
* Python exceptions are modelled with `Except String`; a `try/except` handler
  that swallows the exception is a `match` on the `Except` value.
-/

namespace FireDetection

/-- Models Python `str.lower()` (per-character ASCII lowering, which is what the
repository's class and location strings exercise). -/
def pyLower (s : String) : String := ⟨s.data.map Char.toLower⟩

/-- Models Python `int(x)` on a float: truncation toward zero. -/
def pyInt (x : ℚ) : Int := if 0 ≤ x then Int.floor x else Int.ceil x

/-- One prediction box returned by the inference provider
(`{class, confidence, x, y, width, height}`). -/
structure Prediction where
  «class» : String
  confidence : ℚ
  x : ℚ
  y : ℚ
  width : ℚ
  height : ℚ
deriving DecidableEq, Repr

/-- Weather snapshot as assembled by `WeatherContext.get_weather`. -/
structure Weather where
  condition : String
  description : String
  temperature : ℚ
  humidity : ℚ
  visibility : ℚ
  city : String
deriving DecidableEq, Repr

/-- Embeds `WeatherContext.adjust_confidence` (services/weather_context.py, lines
61-114).  The optional weather fetch is a parameter: `none` models both a missing
API key and a failed fetch.  The reason string interpolates numbers with
`toString`/`round` where Python uses f-string formatting.  The
`adjustments`-nonempty branch divides by `original_confidence`, so the embedding
returns `.error` exactly where Python raises `ZeroDivisionError`. -/
def adjust_confidence (detected_class : String) (confidence : ℚ)
    (weather : Option Weather) : Except String (ℚ × String) :=
  match weather with
  | none => .ok (confidence, "No weather context available")
  | some weather =>
    let original_confidence := confidence
    let s :=
      if pyLower detected_class = "smoke" then
        let s0 : ℚ × List String := (confidence, [])
        let s1 := if weather.condition ∈ (["Fog", "Mist", "Haze"] : List String) then
            (s0.1 * 0.5, s0.2 ++ ["Foggy conditions (" ++ weather.condition ++ ")"])
          else s0
        let s2 := if weather.visibility < 1000 then
            (s1.1 * 0.6, s1.2 ++ ["Low visibility (" ++ toString weather.visibility ++ "m)"])
          else s1
        let s3 := if weather.humidity > 85 then
            (s2.1 * 0.8, s2.2 ++ ["High humidity (" ++ toString weather.humidity ++ "%)"])
          else s2
        let s4 := if weather.temperature < 10 then
            (s3.1 * 0.9, s3.2 ++ ["Cold temperature (" ++ toString weather.temperature ++ "°C)"])
          else s3
        s4
      else (confidence, [])
    if s.2 ≠ [] then
      if original_confidence = 0 then .error "float division by zero"
      else
        let change := ((s.1 - original_confidence) / original_confidence) * 100
        .ok (s.1, "Weather context: " ++ String.intercalate ", " s.2 ++
          " | Confidence adjusted by " ++ toString (round change) ++ "%")
    else .ok (s.1, "Clear weather (" ++ weather.condition ++ "), no adjustment needed")

/-- Embeds `get_recommendation` (services/weather_context.py, lines 207-230). -/
def get_recommendation (detected_class : String) (original_conf adjusted_conf : ℚ)
    (should_alert : Bool) : String :=
  if should_alert = false then
    if pyLower detected_class = "smoke" then
      "⚠️ Smoke detected but confidence reduced due to weather/context. Likely fog, steam, or mist. Visual verification recommended."
    else
      "Low confidence detection. Likely false positive."
  else if adjusted_conf < original_conf * 0.7 then
    "🔥 " ++ detected_class.toUpper ++ " DETECTED! Confidence reduced by weather context but still concerning. Immediate visual verification required."
  else
    "🚨 " ++ detected_class.toUpper ++ " DETECTED! High confidence detection. Take immediate action!"

/-- The per-image detection dict consumed by `smart_detection`
(`predictions`, `count`, `has_fire`, `has_smoke`, `max_confidence`). -/
structure ImageResult where
  predictions : List Prediction
  count : Nat
  has_fire : Bool
  has_smoke : Bool
  max_confidence : ℚ
deriving DecidableEq, Repr

/-- A prediction dict as it appears in the output of `smart_detection`: the
original keys of the prediction, plus the three keys the enrichment may add
(`none` models the key being absent). -/
structure PredictionOut where
  pred : Prediction
  original_confidence : Option ℚ
  adjusted_confidence : Option ℚ
  confidence_change : Option ℚ
deriving DecidableEq, Repr

/-- The `adjustments` entry of the context object: the string `"No detection"`
in the zero-count branch, otherwise the three per-layer reason strings. -/
inductive ContextAdjustments where
  | noDetection
  | layers (weather time location : String)
deriving DecidableEq, Repr

/-- The `context` object attached by `smart_detection`. -/
structure Context where
  weather : Option Weather
  time : Nat
  location : String
  adjustments : ContextAdjustments
deriving DecidableEq, Repr

/-- The enriched result dict built by `smart_detection`: the spread of the input
dict with `predictions` overridden, plus `alert`, `context`, `recommendation`
(`none` models the key being absent, as in the zero-count branch). -/
structure EnhancedResult where
  predictions : List PredictionOut
  count : Nat
  has_fire : Bool
  has_smoke : Bool
  max_confidence : ℚ
  alert : Option Bool
  context : Context
  recommendation : Option String
deriving DecidableEq, Repr

/-- Embeds `smart_detection` (services/weather_context.py, lines 117-204).  The
weather snapshot and the current hour are parameters (the source fetches them
from the OpenWeather API and `datetime.now()`).  `image_result['predictions'][0]`
on an empty list is the `.error` case; errors of `adjust_confidence` propagate,
as an uncaught Python exception would. -/
def smart_detection (image_result : ImageResult) (location : String) (hour : Nat)
    (weather : Option Weather) : Except String EnhancedResult :=
  if image_result.count = 0 then
    .ok { predictions := image_result.predictions.map (fun p => ⟨p, none, none, none⟩),
          count := image_result.count,
          has_fire := image_result.has_fire,
          has_smoke := image_result.has_smoke,
          max_confidence := image_result.max_confidence,
          alert := none,
          context := ⟨weather, hour, location, .noDetection⟩,
          recommendation := none }
  else
    match image_result.predictions with
    | [] => .error "list index out of range"
    | prediction :: _ =>
      let detected_class := prediction.«class»
      let original_confidence := prediction.confidence
      match adjust_confidence detected_class original_confidence weather with
      | .error e => .error e
      | .ok (adjusted₀, weather_reason) =>
        let (adjusted₁, time_reason) :=
          if pyLower detected_class = "smoke" ∧ 5 ≤ hour ∧ hour ≤ 8 then
            (adjusted₀ * 0.8, "Early morning (fog common)")
          else (adjusted₀, "")
        let (adjusted_confidence, location_reason) :=
          if pyLower detected_class = "smoke" ∧
              pyLower location ∈ (["kitchen", "bathroom"] : List String) then
            (adjusted₁ * 0.6, "Location: " ++ location ++ " (steam expected)")
          else (adjusted₁, "")
        let should_alert : Bool := decide (adjusted_confidence > 0.3)
        .ok { predictions := [⟨prediction, some original_confidence, some adjusted_confidence,
                some (adjusted_confidence - original_confidence)⟩],
              count := image_result.count,
              has_fire := image_result.has_fire,
              has_smoke := image_result.has_smoke,
              max_confidence := image_result.max_confidence,
              alert := some should_alert,
              context := ⟨weather, hour, location, .layers weather_reason time_reason location_reason⟩,
              recommendation := some (get_recommendation detected_class original_confidence
                adjusted_confidence should_alert) }

/-- A video source as seen through `cv2.VideoCapture`: whether it opens, the
reported source frame rate (`CAP_PROP_FPS`), and the sequence of frames that
successive `cap.read()` calls decode.  Frames are abstract (`F`); the
BGR-to-RGB and PIL conversions act on frame contents and are identities here. -/
structure VideoSource (F : Type) where
  opens : Bool
  video_fps : ℚ
  frames : List F
deriving DecidableEq, Repr

/-- Embeds line 52 of services/batch_video_processor.py:
`frame_interval = int(video_fps / fps) if fps > 0 else 1`. -/
def frame_interval (video_fps fps : ℚ) : Int :=
  if 0 < fps then pyInt (video_fps / fps) else 1

/-- The spec-side formula for comparison with `frame_interval`.  Follows the
spec's words: `round(sourceFps / targetFps)` clamped to a minimum of 1. -/
def spec_frame_interval (video_fps fps : ℚ) : Int :=
  max 1 (round (video_fps / fps))

/-- The frame-selection loop of `extract_video_frames` (lines 57-73): reads
frames while fewer than `max_frames` have been kept, keeps a frame when
`frame_count % frame_interval == 0`, and raises `ZeroDivisionError` (the
`.error` case) when the modulus is taken with `frame_interval = 0`. -/
def sampleLoop {F : Type} (frame_interval : Int) (max_frames : Nat) :
    List F → Nat → Nat → Except String (List F)
  | [], _, _ => .ok []
  | f :: rest, frame_count, extracted_count =>
    if extracted_count < max_frames then
      if frame_interval = 0 then .error "integer division or modulo by zero"
      else if (frame_count : Int) % frame_interval = 0 then
        match sampleLoop frame_interval max_frames rest (frame_count + 1) (extracted_count + 1) with
        | .ok tail => .ok (f :: tail)
        | .error e => .error e
      else sampleLoop frame_interval max_frames rest (frame_count + 1) extracted_count
    else .ok []

/-- The body of `extract_video_frames` (lines 30-82) before its catch-all
handler: raises `ValueError("Could not open video file")` when the capture does
not open, otherwise runs the sampling loop. -/
def extract_video_frames_core {F : Type} (src : VideoSource F) (fps : ℚ)
    (max_frames : Nat) : Except String (List F) :=
  if src.opens = false then .error "Could not open video file"
  else sampleLoop (frame_interval src.video_fps fps) max_frames src.frames 0 0

/-- Embeds `extract_video_frames` (lines 16-86) as its callers see it: the
`except Exception` handler at lines 84-86 absorbs every raised error and
returns the empty list. -/
def extract_video_frames {F : Type} (src : VideoSource F) (fps : ℚ)
    (max_frames : Nat) : List F :=
  match extract_video_frames_core src fps max_frames with
  | .ok frames => frames
  | .error _ => []

/-- A per-item result dict of `process_batch_images`: the success dict carries
`predictions`/`count`/`has_fire`/`has_smoke`/`max_confidence`, the failure dict
carries `error`; `none`/default values model absent keys. -/
structure BatchItemResult where
  index : Nat
  success : Bool
  predictions : List Prediction
  count : Nat
  has_fire : Bool
  has_smoke : Bool
  max_confidence : ℚ
  error : Option String
deriving DecidableEq, Repr

/-- Models `max([p.get('confidence', 0) for p in predictions]) if predictions else 0`. -/
def maxConfidence : List Prediction → ℚ
  | [] => 0
  | p :: rest => rest.foldl (fun acc q => max acc q.confidence) p.confidence

/-- Embeds the inner `process_single_image` of `process_batch_images`
(lines 104-176).  Decoding, resizing and the HTTP POST are abstracted into
`api`: `.ok` is the 200 response's prediction list, `.error` covers both the
non-200 branch and the `except` branch (each of which yields a failure dict). -/
def process_single_image {α : Type} (api : α → Except String (List Prediction))
    (image : α) (index : Nat) : BatchItemResult :=
  match api image with
  | .ok predictions =>
    { index := index, success := true, predictions := predictions,
      count := predictions.length,
      has_fire := predictions.any (fun p => decide (pyLower p.«class» = "fire")),
      has_smoke := predictions.any (fun p => decide (pyLower p.«class» = "smoke")),
      max_confidence := maxConfidence predictions,
      error := none }
  | .error e =>
    { index := index, success := false, predictions := [], count := 0,
      has_fire := false, has_smoke := false, max_confidence := 0,
      error := some e }

/-- Embeds `process_batch_images` (lines 88-218).  The thread pool is abstracted
by `completion`: the order in which `as_completed` yields the submitted futures,
as a list of input indices.  Results are collected in completion order and then
sorted by index (`results.sort(key=lambda x: x['index'])`, a stable sort). -/
def process_batch_images {α : Type} (api : α → Except String (List Prediction))
    (images : List α) (completion : List Nat) : List BatchItemResult :=
  (completion.filterMap (fun i =>
    (images[i]?).map (fun image => process_single_image api image i))).mergeSort
    (fun a b => decide (a.index ≤ b.index))

/-- The summary dict of `analyze_batch_results` (lines 220-251). -/
structure BatchSummary where
  total_images : Nat
  successful : Nat
  failed : Nat
  fire_detected_count : Nat
  smoke_detected_count : Nat
  total_detections : Nat
  success_rate : ℚ
  fire_rate : ℚ
  smoke_rate : ℚ
deriving DecidableEq, Repr

/-- Embeds `analyze_batch_results` (lines 220-251); each rate falls back to 0
when its denominator is 0. -/
def analyze_batch_results (results : List BatchItemResult) : BatchSummary :=
  let total := results.length
  let successful := results.countP (fun r => r.success)
  let failed := total - successful
  let fire_detected := results.countP (fun r => r.has_fire)
  let smoke_detected := results.countP (fun r => r.has_smoke)
  let total_detections := (results.filter (fun r => r.success)).foldl
    (fun acc r => acc + r.count) 0
  { total_images := total, successful := successful, failed := failed,
    fire_detected_count := fire_detected, smoke_detected_count := smoke_detected,
    total_detections := total_detections,
    success_rate := if 0 < total then (successful : ℚ) / total * 100 else 0,
    fire_rate := if 0 < successful then (fire_detected : ℚ) / successful * 100 else 0,
    smoke_rate := if 0 < successful then (smoke_detected : ℚ) / successful * 100 else 0 }

/-- One timeline entry of `process_video_detection` (lines 289-304):
`image_base64` holds the source frame (encoding abstracted) exactly when it is
attached. -/
structure TimelineEntry (F : Type) where
  frame : Nat
  timestamp : ℚ
  has_fire : Bool
  has_smoke : Bool
  detection_count : Nat
  predictions : List Prediction
  image_base64 : Option F
deriving DecidableEq, Repr

/-- The `frame_data` dict built for one successful result at position `x.1` in
the timeline loop (lines 289-304); the frame image is attached only when
`count > 0 and i < len(frames)`. -/
def timelineEntryOf {F : Type} (fps : ℚ) (frames : List F)
    (x : Nat × BatchItemResult) : TimelineEntry F :=
  { frame := x.1 + 1,
    timestamp := (x.1 : ℚ) * (1 / fps),
    has_fire := x.2.has_fire,
    has_smoke := x.2.has_smoke,
    detection_count := x.2.count,
    predictions := x.2.predictions,
    image_base64 := if 0 < x.2.count ∧ x.1 < frames.length then frames[x.1]? else none }

/-- The timeline loop of `process_video_detection` (lines 286-306) over the
enumerated results: one entry per successful result.  The timestamp
`i * (1/fps)` at line 291 divides by `fps`, so with `fps = 0` the first
successful item raises `ZeroDivisionError` (the `.error` case); skipped
(failed) items never evaluate the timestamp. -/
def timelineLoop {F : Type} (fps : ℚ) (frames : List F) :
    List (Nat × BatchItemResult) → Except String (List (TimelineEntry F))
  | [] => .ok []
  | x :: rest =>
    if x.2.success then
      if fps = 0 then .error "float division by zero"
      else
        match timelineLoop fps frames rest with
        | .ok tail => .ok (timelineEntryOf fps frames x :: tail)
        | .error e => .error e
    else timelineLoop fps frames rest

/-- The timeline of `process_video_detection` (lines 286-306), fallible because
of the `i * (1/fps)` timestamp division. -/
def buildTimeline {F : Type} (fps : ℚ) (frames : List F)
    (results : List BatchItemResult) : Except String (List (TimelineEntry F)) :=
  timelineLoop fps frames results.enum

/-- The return value of `process_video_detection`: the `{success: False, error}`
dict or the full success dict. -/
inductive VideoResult (F : Type) where
  | failure (error : String)
  | success (frames_analyzed : Nat) (summary : BatchSummary)
      (timeline : List (TimelineEntry F)) (detailed_results : List BatchItemResult)
deriving DecidableEq, Repr

/-- Embeds `process_video_detection` (lines 253-314): extract frames,
short-circuit to the failure dict when none were extracted, otherwise run the
batch detector, summarize, and build the timeline.  Both dicts are normal
returns (`.ok`); an uncaught `ZeroDivisionError` from the timeline loop
propagates to the caller as the `.error` case. -/
def process_video_detection {F : Type} (api : F → Except String (List Prediction))
    (completion : List Nat) (src : VideoSource F) (fps : ℚ) (max_frames : Nat) :
    Except String (VideoResult F) :=
  let frames := extract_video_frames src fps max_frames
  if frames.isEmpty then
    .ok (.failure "Could not extract frames from video")
  else
    let results := process_batch_images api frames completion
    let summary := analyze_batch_results results
    match buildTimeline fps frames results with
    | .error e => .error e
    | .ok timeline => .ok (.success frames.length summary timeline results)

/-- A webhook row as read by `trigger_alerts` (`url`, `event_type`). -/
structure Webhook where
  url : String
  event_type : String
deriving DecidableEq, Repr

/-- The email settings dict read by `trigger_alerts` (lines 259-263); the
defaulted `.get` values are explicit fields here. -/
structure EmailSettings where
  enabled : Bool
  email_address : Option String
  min_confidence : ℚ
  alert_for_fire : Bool
  alert_for_smoke : Bool
deriving DecidableEq, Repr

/-- The SMS settings dict read by `trigger_alerts` (lines 282-284). -/
structure SmsSettings where
  enabled : Bool
  phone_number : Option String
  min_confidence : ℚ
deriving DecidableEq, Repr

/-- The detection fields `trigger_alerts` inspects (`has_fire`, `has_smoke`,
`max_confidence`), with `.get` defaults as field values. -/
structure DetectionData where
  has_fire : Bool
  has_smoke : Bool
  max_confidence : ℚ
deriving DecidableEq, Repr

/-- The result dict of `trigger_alerts`; for each channel we record the targets
actually dispatched to (the transport calls themselves are external). -/
structure AlertResults where
  webhooks : List String
  emails : List String
  sms : List String
deriving DecidableEq, Repr

/-- Embeds `trigger_alerts` (services/notifications.py, lines 216-297): the
per-channel decision logic, with the transports (`send_webhook`,
`send_email_alert`, `send_sms_alert`) abstracted to recording the target. -/
def trigger_alerts (detection_data : DetectionData) (webhooks : List Webhook)
    (email_settings : Option EmailSettings) (sms_settings : Option SmsSettings) :
    AlertResults :=
  let has_fire := detection_data.has_fire
  let has_smoke := detection_data.has_smoke
  let webhookSent := webhooks.filterMap (fun webhook =>
    let event_type := webhook.event_type
    let should_trigger :=
      event_type = "all" ∨ (event_type = "fire_detected" ∧ has_fire = true) ∨
        (event_type = "smoke_detected" ∧ has_smoke = true)
    if should_trigger then some webhook.url else none)
  let emailSent :=
    match email_settings with
    | some es =>
      if es.enabled then
        let should_send :=
          detection_data.max_confidence ≥ es.min_confidence ∧
            ((has_fire = true ∧ es.alert_for_fire = true) ∨
              (has_smoke = true ∧ es.alert_for_smoke = true))
        if should_send then
          match es.email_address with
          | some to_email => [to_email]
          | none => []
        else []
      else []
    | none => []
  let smsSent :=
    match sms_settings with
    | some ss =>
      if ss.enabled then
        if detection_data.max_confidence ≥ ss.min_confidence then
          match ss.phone_number with
          | some to_phone => [to_phone]
          | none => []
        else []
      else []
    | none => []
  { webhooks := webhookSent, emails := emailSent, sms := smsSent }

/-- Embeds the alert-eligibility decision inline in `roboflow_detect`
(app.py, lines 355-365): the two `if` statements building `should_alert` and
the comparison of `max_confidence * 100` against the configured threshold. -/
def roboflow_alert_decision (has_fire has_smoke : Bool) (max_confidence : ℚ)
    (alert_for_fire alert_for_smoke : Bool) (min_confidence : ℚ) : Bool :=
  let should_alert := (has_fire && alert_for_fire) || (has_smoke && alert_for_smoke)
  let max_conf_percent := max_confidence * 100
  should_alert && decide (max_conf_percent ≥ min_confidence)

/-- The spec-side trigger rule for comparison.  Follows the spec's words:
fires when `(has_fire AND alert_for_fire) OR (has_smoke AND alert_for_smoke)`
and the maximum confidence expressed as a percentage is at least
`min_confidence`. -/
def spec_email_sms_rule (has_fire has_smoke alert_for_fire alert_for_smoke : Bool)
    (max_confidence min_confidence : ℚ) : Prop :=
  ((has_fire = true ∧ alert_for_fire = true) ∨
    (has_smoke = true ∧ alert_for_smoke = true)) ∧
    max_confidence * 100 ≥ min_confidence

instance (hf hs aff afs : Bool) (mc minc : ℚ) :
    Decidable (spec_email_sms_rule hf hs aff afs mc minc) := by
  unfold spec_email_sms_rule; infer_instance

instance instDecidableEqExcept {ε α : Type} [DecidableEq ε] [DecidableEq α] :
    DecidableEq (Except ε α) := fun x y =>
  match x, y with
  | .error a, .error b =>
    if h : a = b then .isTrue (congrArg Except.error h)
    else .isFalse (fun hc => h (Except.error.inj hc))
  | .ok a, .ok b =>
    if h : a = b then .isTrue (congrArg Except.ok h)
    else .isFalse (fun hc => h (Except.ok.inj hc))
  | .error e, .ok a => .isFalse (fun hc => Except.noConfusion hc)
  | .ok a, .error e => .isFalse (fun hc => Except.noConfusion hc)

/-- The combined time-of-day and location layers of `smart_detection`
(services/weather_context.py, lines 160-172) applied to the weather-adjusted
confidence `a₀`; a named view used to state evaluation lemmas. -/
def layered_confidence (cls location : String) (hour : Nat) (a₀ : ℚ) : ℚ :=
  let adjusted₁ := if pyLower cls = "smoke" ∧ 5 ≤ hour ∧ hour ≤ 8 then a₀ * 0.8 else a₀
  if pyLower cls = "smoke" ∧ pyLower location ∈ (["kitchen", "bathroom"] : List String) then
    adjusted₁ * 0.6
  else adjusted₁

/-- The `time_reason` string of `smart_detection` (lines 161-164). -/
def time_reason_str (cls : String) (hour : Nat) : String :=
  if pyLower cls = "smoke" ∧ 5 ≤ hour ∧ hour ≤ 8 then "Early morning (fog common)" else ""

/-- The `location_reason` string of `smart_detection` (lines 167-171). -/
def location_reason_str (cls location : String) : String :=
  if pyLower cls = "smoke" ∧ pyLower location ∈ (["kitchen", "bathroom"] : List String) then
    "Location: " ++ location ++ " (steam expected)"
  else ""

/-- The weather-layer confidence chain of `adjust_confidence` (lines 84-104);
a named view used to state evaluation lemmas. -/
def weather_adjusted (dc : String) (conf : ℚ) (weather : Weather) : ℚ :=
  if pyLower dc = "smoke" then
    let c1 := if weather.condition ∈ (["Fog", "Mist", "Haze"] : List String) then
      conf * 0.5 else conf
    let c2 := if weather.visibility < 1000 then c1 * 0.6 else c1
    let c3 := if weather.humidity > 85 then c2 * 0.8 else c2
    if weather.temperature < 10 then c3 * 0.9 else c3
  else conf

lemma process_single_image_index {α : Type} (api : α → Except String (List Prediction))
    (image : α) (i : Nat) : (process_single_image api image i).index = i := by
  unfold process_single_image
  cases api image <;> rfl

lemma collected_map_index {α : Type} (api : α → Except String (List Prediction))
    (images : List α) (completion : List Nat) (h : ∀ i ∈ completion, i < images.length) :
    ((completion.filterMap (fun i =>
      (images[i]?).map (fun image => process_single_image api image i))).map
      (fun r => r.index)) = completion := by
  induction completion with
  | nil => rfl
  | cons j rest ih =>
    have hj : j < images.length := h j (List.mem_cons_self j rest)
    have hget : images[j]? = some (images.get ⟨j, hj⟩) := List.getElem?_eq_getElem hj
    simp [List.filterMap_cons, hget, process_single_image_index,
      ih (fun i hi => h i (List.mem_cons_of_mem _ hi))]

/-- C1: for every input sequence of N images and any completion order of the
worker pool (a permutation of the indices 0..N-1, covering every worker count),
`process_batch_images` returns results whose `index` fields are exactly
0..N-1 in ascending order, one result per input item. -/
theorem process_batch_images_index_order {α : Type}
    (api : α → Except String (List Prediction)) (images : List α)
    (completion : List Nat) (h : completion.Perm (List.range images.length)) :
    (process_batch_images api images completion).map (fun r => r.index) =
      List.range images.length := by
  have hmem : ∀ i ∈ completion, i < images.length := fun i hi =>
    List.mem_range.mp (h.mem_iff.mp hi)
  unfold process_batch_images
  generalize hcol : completion.filterMap (fun i =>
    (images[i]?).map (fun image => process_single_image api image i)) = collected
  have h1 : collected.map (fun r => r.index) = completion := by
    rw [← hcol]; exact collected_map_index api images completion hmem
  have hperm : (collected.mergeSort (fun a b => decide (a.index ≤ b.index))).Perm collected :=
    List.mergeSort_perm collected _
  have hmap : ((collected.mergeSort (fun a b => decide (a.index ≤ b.index))).map
      (fun r => r.index)).Perm (List.range images.length) := by
    refine (hperm.map _).trans ?_
    rw [h1]; exact h
  have hpw : List.Pairwise
      (fun a b : BatchItemResult => (decide (a.index ≤ b.index)) = true)
      (collected.mergeSort (fun a b => decide (a.index ≤ b.index))) :=
    List.sorted_mergeSort
      (by intro a b c hab hbc; simp only [decide_eq_true_eq] at *; omega)
      (by intro a b; rcases Nat.le_total a.index b.index with h2 | h2 <;> simp [h2])
      collected
  have hsorted : List.Sorted (fun a b : Nat => a ≤ b)
      ((collected.mergeSort (fun a b => decide (a.index ≤ b.index))).map
        (fun r => r.index)) := by
    rw [List.Sorted, List.pairwise_map]
    exact hpw.imp (by intro a b hab; simpa using hab)
  exact List.eq_of_perm_of_sorted hmap hsorted (List.sorted_le_range images.length)

/-- Witness for C1 at a concrete input: three images with completion order
[2, 0, 1]. -/
theorem process_batch_images_index_order_witness :
    List.Perm [2, 0, 1] (List.range 3) ∧
      (process_batch_images (fun _ : Nat => Except.error "API error: 500")
        [10, 20, 30] [2, 0, 1]).map (fun r => r.index) = List.range 3 :=
  ⟨by decide,
    process_batch_images_index_order (fun _ : Nat => Except.error "API error: 500")
      [10, 20, 30] [2, 0, 1] (by decide)⟩

/-- C5 counterexample: an unopenable source raises internally but the surfaced
return value is the empty list, identical to an opened source that yields zero
frames, so a caller cannot distinguish the two cases. -/
theorem extract_video_frames_open_failure_counterexample :
    extract_video_frames_core (F := Nat) ⟨false, 30, [7]⟩ 1 30 =
        .error "Could not open video file" ∧
      extract_video_frames (F := Nat) ⟨false, 30, [7]⟩ 1 30 = [] ∧
      extract_video_frames (F := Nat) ⟨true, 30, []⟩ 1 30 = [] := by
  refine ⟨by simp [extract_video_frames_core],
    by simp [extract_video_frames, extract_video_frames_core],
    by simp [extract_video_frames, extract_video_frames_core, sampleLoop]⟩

/-- C5 amended: open failure raises `ValueError("Could not open video file")`
internally, but the catch-all handler absorbs it and the caller receives the
empty list, exactly as for an opened source yielding zero frames. -/
theorem extract_video_frames_error_absorbed {F : Type} (src : VideoSource F)
    (fps : ℚ) (max_frames : Nat) :
    (src.opens = false →
      extract_video_frames_core src fps max_frames =
          .error "Could not open video file" ∧
        extract_video_frames src fps max_frames = []) ∧
      (src.opens = true → src.frames = [] →
        extract_video_frames src fps max_frames = []) := by
  constructor
  · intro h
    have hc : extract_video_frames_core src fps max_frames =
        .error "Could not open video file" := by
      unfold extract_video_frames_core
      rw [h]
      simp
    exact ⟨hc, by unfold extract_video_frames; rw [hc]⟩
  · intro h hf
    unfold extract_video_frames extract_video_frames_core
    rw [h, hf]
    simp [sampleLoop]

/-- Witness for C5 amended at concrete inputs. -/
theorem extract_video_frames_error_absorbed_witness :
    (extract_video_frames_core (F := Nat) ⟨false, 25, [3, 4]⟩ 2 40 =
        .error "Could not open video file" ∧
      extract_video_frames (F := Nat) ⟨false, 25, [3, 4]⟩ 2 40 = []) ∧
      extract_video_frames (F := Nat) ⟨true, 25, []⟩ 2 40 = [] :=
  ⟨(extract_video_frames_error_absorbed (F := Nat) ⟨false, 25, [3, 4]⟩ 2 40).1 rfl,
    (extract_video_frames_error_absorbed (F := Nat) ⟨true, 25, []⟩ 2 40).2 rfl rfl⟩

lemma sampleLoop_ok {F : Type} (interval : Int) (hnz : interval ≠ 0)
    (max_frames : Nat) :
    ∀ (frames : List F) (fc ex : Nat), ex ≤ max_frames →
      sampleLoop interval max_frames frames fc ex =
        .ok ((((frames.enumFrom fc).filter
          (fun x => decide ((x.1 : Int) % interval = 0))).map Prod.snd).take
          (max_frames - ex)) := by
  intro frames
  induction frames with
  | nil => intro fc ex hex; simp [sampleLoop, List.enumFrom]
  | cons f rest ih =>
    intro fc ex hex
    by_cases hlt : ex < max_frames
    · obtain ⟨k, hk⟩ : ∃ k, max_frames - ex = k + 1 := ⟨max_frames - ex - 1, by omega⟩
      have hk2 : max_frames - (ex + 1) = k := by omega
      by_cases hmod : (fc : Int) % interval = 0
      · have htail := ih (fc + 1) (ex + 1) (by omega)
        have hdvd : interval ∣ (fc : Int) := Int.dvd_of_emod_eq_zero hmod
        simp only [sampleLoop, if_pos hlt, if_neg hnz, if_pos hmod, htail]
        simp [List.enumFrom, hmod, hdvd, hk, hk2]
      · have htail := ih (fc + 1) ex hex
        have hdvd : ¬ interval ∣ (fc : Int) := fun hd => hmod (Int.emod_eq_zero_of_dvd hd)
        simp only [sampleLoop, if_pos hlt, if_neg hnz, if_neg hmod, htail]
        simp [List.enumFrom, hmod, hdvd]
    · have hex2 : ex = max_frames := by omega
      simp [sampleLoop, hlt, hex2]

lemma sampleLoop_zero_err {F : Type} (max_frames : Nat) (f : F) (rest : List F)
    (fc ex : Nat) (hlt : ex < max_frames) :
    sampleLoop 0 max_frames (f :: rest) fc ex =
      .error "integer division or modulo by zero" := by
  simp [sampleLoop, hlt]

/-- C6 counterexample: the code truncates instead of rounding and has no
minimum-1 clamp, so the interval differs from the claimed formula, and with
sourceFps 2 and targetFps 5 the interval is 0 and the frame-selection step
takes a modulus by zero. -/
theorem frame_interval_formula_counterexample :
    frame_interval 5 3 = 1 ∧ spec_frame_interval 5 3 = 2 ∧
      frame_interval 2 5 = 0 ∧ spec_frame_interval 2 5 = 1 ∧
      extract_video_frames_core (F := Nat) ⟨true, 2, [7]⟩ 5 30 =
        .error "integer division or modulo by zero" := by
  have h0 : frame_interval 2 5 = 0 := by norm_num [frame_interval, pyInt]
  refine ⟨by norm_num [frame_interval, pyInt],
    by norm_num [spec_frame_interval, round_eq],
    h0,
    by norm_num [spec_frame_interval, round_eq], ?_⟩
  show sampleLoop (frame_interval 2 5) 30 [7] 0 0 =
    .error "integer division or modulo by zero"
  rw [h0]
  exact sampleLoop_zero_err 30 7 [] 0 0 (by omega)

/-- C6 amended: the interval is `int(sourceFps/targetFps)` (truncation) when
targetFps is positive and 1 otherwise, with no minimum clamp; when it is
nonzero every interval-th decoded frame is kept (capped at `max_frames`), and
when it is 0 the selection step hits a modulus by zero whose exception is
absorbed into an empty return. -/
theorem extract_video_frames_interval_characterization {F : Type}
    (src : VideoSource F) (fps : ℚ) (max_frames : Nat) (hopen : src.opens = true) :
    (frame_interval src.video_fps fps ≠ 0 →
      extract_video_frames src fps max_frames =
        (((src.frames.enum.filter
          (fun x => decide ((x.1 : Int) % frame_interval src.video_fps fps = 0))).map
          Prod.snd).take max_frames)) ∧
      (frame_interval src.video_fps fps = 0 → src.frames ≠ [] → 0 < max_frames →
        extract_video_frames_core src fps max_frames =
            .error "integer division or modulo by zero" ∧
          extract_video_frames src fps max_frames = []) := by
  constructor
  · intro hnz
    have hcore : extract_video_frames_core src fps max_frames =
        .ok (((src.frames.enum.filter
          (fun x => decide ((x.1 : Int) % frame_interval src.video_fps fps = 0))).map
          Prod.snd).take max_frames) := by
      unfold extract_video_frames_core
      rw [hopen]
      have hloop := sampleLoop_ok (frame_interval src.video_fps fps) hnz max_frames
        src.frames 0 0 (Nat.zero_le _)
      simpa [List.enum] using hloop
    unfold extract_video_frames
    rw [hcore]
  · intro hz hne hpos
    obtain ⟨f, rest, hfr⟩ : ∃ f rest, src.frames = f :: rest := by
      cases hfr : src.frames with
      | nil => exact absurd hfr hne
      | cons f rest => exact ⟨f, rest, rfl⟩
    have hcore : extract_video_frames_core src fps max_frames =
        .error "integer division or modulo by zero" := by
      unfold extract_video_frames_core
      rw [hopen, hfr, hz]
      simpa using sampleLoop_zero_err max_frames f rest 0 0 hpos
    exact ⟨hcore, by unfold extract_video_frames; rw [hcore]⟩

/-- Witness for C6 amended: sourceFps 4 at targetFps 2 keeps every 2nd frame;
sourceFps 1 at targetFps 4 yields interval 0 and the absorbed modulus error. -/
theorem extract_video_frames_interval_characterization_witness :
    extract_video_frames (F := Nat) ⟨true, 4, [10, 11, 12, 13, 14]⟩ 2 30 =
        [10, 12, 14] ∧
      extract_video_frames_core (F := Nat) ⟨true, 1, [9]⟩ 4 10 =
        .error "integer division or modulo by zero" := by
  have h2 : frame_interval 4 2 = 2 := by norm_num [frame_interval, pyInt]
  have hnz : frame_interval (4 : ℚ) 2 ≠ 0 := by rw [h2]; omega
  have h0 : frame_interval (1 : ℚ) 4 = 0 := by norm_num [frame_interval, pyInt]
  constructor
  · have h := (extract_video_frames_interval_characterization (F := Nat)
      ⟨true, 4, [10, 11, 12, 13, 14]⟩ 2 30 rfl).1 hnz
    rw [h]
    show ((([10, 11, 12, 13, 14].enum.filter
      (fun x => decide ((x.1 : Int) % frame_interval 4 2 = 0))).map
      Prod.snd).take 30) = [10, 12, 14]
    simp only [h2]
    decide
  · exact ((extract_video_frames_interval_characterization (F := Nat)
      ⟨true, 1, [9]⟩ 4 10 rfl).2 h0 (by simp) (by omega)).1

/-- C8: when the frame sampler yields zero frames, `process_video_detection`
returns the failure dict (success false plus an error string) and never invokes
the batch detector: the result is the same for every `api` and every completion
order, and carries no summary or timeline. -/
theorem process_video_detection_empty_short_circuit {F : Type}
    (api : F → Except String (List Prediction)) (completion : List Nat)
    (src : VideoSource F) (fps : ℚ) (max_frames : Nat)
    (h : extract_video_frames src fps max_frames = []) :
    process_video_detection api completion src fps max_frames =
      .ok (.failure "Could not extract frames from video") := by
  simp [process_video_detection, h]

/-- Witness for C8 at a concrete unopenable source. -/
theorem process_video_detection_empty_short_circuit_witness :
    extract_video_frames (F := Nat) ⟨false, 12, [5]⟩ 1 25 = [] ∧
      process_video_detection (fun _ : Nat => Except.ok []) [0] ⟨false, 12, [5]⟩ 1 25 =
        .ok (.failure "Could not extract frames from video") := by
  have h : extract_video_frames (F := Nat) ⟨false, 12, [5]⟩ 1 25 = [] := by
    simp [extract_video_frames, extract_video_frames_core]
  exact ⟨h, process_video_detection_empty_short_circuit _ _ _ _ _ h⟩

lemma length_filter_enumFrom {β : Type} (p : β → Bool) :
    ∀ (l : List β) (n : Nat),
      ((List.enumFrom n l).filter (fun x => p x.2)).length = (l.filter p).length := by
  intro l
  induction l with
  | nil => intro n; rfl
  | cons a t ih =>
    intro n
    cases h : p a <;> simp [List.enumFrom, List.filter_cons, h, ih]

lemma timelineLoop_ok {F : Type} (fps : ℚ) (hfps : fps ≠ 0) (frames : List F) :
    ∀ l : List (Nat × BatchItemResult),
      timelineLoop fps frames l =
        .ok ((l.filter (fun x => x.2.success)).map (timelineEntryOf fps frames)) := by
  intro l
  induction l with
  | nil => rfl
  | cons x rest ih =>
    cases hx : x.2.success
    · simp [timelineLoop, hx, List.filter_cons, ih]
    · simp [timelineLoop, hx, hfps, List.filter_cons, ih]

/-- C10: on a source with at least one extracted frame and a nonzero target
fps (at fps 0 the timeline loop raises instead of returning), the returned
timeline has exactly one entry per successful batch item (failed items are
silently omitted), while `frames_analyzed` counts every extracted frame; when
the completion order covers all frames, the detailed results cover every
frame, so the timeline can be shorter than `frames_analyzed` exactly when
items failed. -/
theorem process_video_detection_timeline_successes {F : Type}
    (api : F → Except String (List Prediction)) (completion : List Nat)
    (src : VideoSource F) (fps : ℚ) (max_frames : Nat)
    (h : extract_video_frames src fps max_frames ≠ []) (hfps : fps ≠ 0) :
    ∃ summary timeline results,
      process_video_detection api completion src fps max_frames =
          .ok (.success (extract_video_frames src fps max_frames).length summary
            timeline results) ∧
        results = process_batch_images api (extract_video_frames src fps max_frames)
          completion ∧
        buildTimeline fps (extract_video_frames src fps max_frames) results =
          .ok timeline ∧
        timeline.length = (results.filter (fun r => r.success)).length ∧
        (completion.Perm (List.range (extract_video_frames src fps max_frames).length) →
          results.length = (extract_video_frames src fps max_frames).length) := by
  have hie : (extract_video_frames src fps max_frames).isEmpty = false := by
    cases hfrc : extract_video_frames src fps max_frames with
    | nil => exact absurd hfrc h
    | cons a t => rfl
  have htl : buildTimeline fps (extract_video_frames src fps max_frames)
      (process_batch_images api (extract_video_frames src fps max_frames) completion) =
      .ok ((((process_batch_images api (extract_video_frames src fps max_frames)
        completion).enum.filter (fun x => x.2.success)).map
        (timelineEntryOf fps (extract_video_frames src fps max_frames)))) :=
    timelineLoop_ok fps hfps _ _
  refine ⟨analyze_batch_results (process_batch_images api
      (extract_video_frames src fps max_frames) completion),
    (((process_batch_images api (extract_video_frames src fps max_frames)
      completion).enum.filter (fun x => x.2.success)).map
      (timelineEntryOf fps (extract_video_frames src fps max_frames))),
    process_batch_images api (extract_video_frames src fps max_frames) completion,
    ?_, rfl, htl, ?_, ?_⟩
  · simp [process_video_detection, hie, htl]
  · simp only [List.length_map, List.enum]
    exact length_filter_enumFrom (fun r : BatchItemResult => r.success) _ 0
  · intro hperm
    have hmem : ∀ i ∈ completion, i < (extract_video_frames src fps max_frames).length :=
      fun i hi => List.mem_range.mp (hperm.mem_iff.mp hi)
    unfold process_batch_images
    rw [(List.mergeSort_perm _ _).length_eq]
    have hidx := collected_map_index api (extract_video_frames src fps max_frames)
      completion hmem
    calc (completion.filterMap (fun i =>
          ((extract_video_frames src fps max_frames)[i]?).map
            (fun image => process_single_image api image i))).length
        = ((completion.filterMap (fun i =>
            ((extract_video_frames src fps max_frames)[i]?).map
              (fun image => process_single_image api image i))).map
            (fun r => r.index)).length := (List.length_map _ _).symm
      _ = completion.length := by rw [hidx]
      _ = (List.range (extract_video_frames src fps max_frames).length).length :=
          hperm.length_eq
      _ = (extract_video_frames src fps max_frames).length := List.length_range _

/-- Witness for C10: a two-frame video at target fps 1 where the detection of
the second frame fails; the theorem applies with the extracted frames
`[100, 200]`. -/
theorem process_video_detection_timeline_successes_witness :
    extract_video_frames (F := Nat) ⟨true, 1, [100, 200]⟩ 1 30 ≠ [] ∧ (1 : ℚ) ≠ 0 ∧
      (∃ summary timeline results,
        process_video_detection
            (fun f : Nat => if f = 200 then Except.error "API error: 500" else Except.ok [])
            [0, 1] ⟨true, 1, [100, 200]⟩ 1 30 =
            .ok (.success (extract_video_frames (F := Nat) ⟨true, 1, [100, 200]⟩ 1 30).length
              summary timeline results) ∧
          results = process_batch_images
            (fun f : Nat => if f = 200 then Except.error "API error: 500" else Except.ok [])
            (extract_video_frames (F := Nat) ⟨true, 1, [100, 200]⟩ 1 30) [0, 1] ∧
          buildTimeline 1 (extract_video_frames (F := Nat) ⟨true, 1, [100, 200]⟩ 1 30)
            results = .ok timeline ∧
          timeline.length = (results.filter (fun r => r.success)).length ∧
          (List.Perm [0, 1]
              (List.range (extract_video_frames (F := Nat) ⟨true, 1, [100, 200]⟩ 1 30).length) →
            results.length =
              (extract_video_frames (F := Nat) ⟨true, 1, [100, 200]⟩ 1 30).length)) := by
  have h1 : frame_interval (1 : ℚ) 1 = 1 := by norm_num [frame_interval, pyInt]
  have hcore : extract_video_frames_core (F := Nat) ⟨true, 1, [100, 200]⟩ 1 30 =
      .ok [100, 200] := by
    show sampleLoop (frame_interval 1 1) 30 [100, 200] 0 0 = .ok [100, 200]
    rw [h1]
    decide
  have hx : extract_video_frames (F := Nat) ⟨true, 1, [100, 200]⟩ 1 30 ≠ [] := by
    unfold extract_video_frames
    rw [hcore]
    simp
  exact ⟨hx, by norm_num,
    process_video_detection_timeline_successes _ _ _ _ _ hx (by norm_num)⟩

set_option maxHeartbeats 1600000 in
lemma adjust_confidence_ok_bounds (dc : String) (conf : ℚ) (w : Option Weather)
    (a : ℚ) (r : String) (h : adjust_confidence dc conf w = .ok (a, r)) :
    (0 ≤ conf → a ≤ conf ∧ 0 ≤ a) ∧ (pyLower dc ≠ "smoke" → a = conf) := by
  cases w with
  | none =>
    simp only [adjust_confidence, Except.ok.injEq, Prod.mk.injEq] at h
    obtain ⟨ha, -⟩ := h
    subst ha
    exact ⟨fun hc => ⟨le_refl _, hc⟩, fun _ => rfl⟩
  | some weather =>
    simp only [adjust_confidence] at h
    split_ifs at h <;>
      first
        | exact Except.noConfusion h
        | (simp only [Except.ok.injEq, Prod.mk.injEq] at h
           obtain ⟨ha, -⟩ := h
           subst ha
           constructor
           · intro hc
             constructor <;> linarith
           · intro hs
             first | rfl | simp_all)

lemma smart_detection_eval (ir : ImageResult) (p : Prediction) (rest : List Prediction)
    (hour : Nat) (location : String) (weather : Option Weather) (a₀ : ℚ) (wr : String)
    (hc : ir.count ≠ 0) (hp : ir.predictions = p :: rest)
    (hadj : adjust_confidence p.«class» p.confidence weather = .ok (a₀, wr)) :
    smart_detection ir location hour weather =
      .ok { predictions := [⟨p, some p.confidence,
              some (layered_confidence p.«class» location hour a₀),
              some (layered_confidence p.«class» location hour a₀ - p.confidence)⟩],
            count := ir.count, has_fire := ir.has_fire, has_smoke := ir.has_smoke,
            max_confidence := ir.max_confidence,
            alert := some (decide (layered_confidence p.«class» location hour a₀ > 0.3)),
            context := ⟨weather, hour, location,
              .layers wr (time_reason_str p.«class» hour)
                (location_reason_str p.«class» location)⟩,
            recommendation := some (get_recommendation p.«class» p.confidence
              (layered_confidence p.«class» location hour a₀)
              (decide (layered_confidence p.«class» location hour a₀ > 0.3))) } := by
  unfold smart_detection
  rw [if_neg hc, hp]
  dsimp only
  rw [hadj]
  unfold layered_confidence time_reason_str location_reason_str
  dsimp only
  split_ifs <;> rfl

/-- C3: for every weather context, hour, location and raw confidence at least 0,
the confidence produced by the full adjuster pipeline is at most the raw
confidence when the detected class is (case-insensitively) smoke, and equals
the raw confidence when it is fire. -/
theorem smart_detection_confidence_monotone
    (ir : ImageResult) (p : Prediction) (rest : List Prediction) (hour : Nat)
    (location : String) (weather : Option Weather) (r : EnhancedResult)
    (hp : ir.predictions = p :: rest) (hc : ir.count ≠ 0) (hconf : 0 ≤ p.confidence)
    (h : smart_detection ir location hour weather = .ok r) :
    ∃ a : ℚ, r.predictions.map (fun q => q.adjusted_confidence) = [some a] ∧
      (pyLower p.«class» = "smoke" → a ≤ p.confidence) ∧
      (pyLower p.«class» = "fire" → a = p.confidence) := by
  cases hadj : adjust_confidence p.«class» p.confidence weather with
  | error e =>
    unfold smart_detection at h
    rw [if_neg hc, hp] at h
    dsimp only at h
    rw [hadj] at h
    exact Except.noConfusion h
  | ok pr =>
    obtain ⟨a₀, wr⟩ := pr
    rw [smart_detection_eval ir p rest hour location weather a₀ wr hc hp hadj] at h
    obtain ⟨hb, hpass⟩ := adjust_confidence_ok_bounds _ _ _ _ _ hadj
    obtain ⟨hle, hnn⟩ := hb hconf
    have hr := (Except.ok.inj h).symm
    subst hr
    refine ⟨layered_confidence p.«class» location hour a₀, by simp, ?_, ?_⟩
    · intro hsm
      unfold layered_confidence
      dsimp only
      split_ifs <;> linarith
    · intro hfi
      have hns : pyLower p.«class» ≠ "smoke" := by rw [hfi]; decide
      have ha := hpass hns
      simp [layered_confidence, hns, ha]

/-- Witness for C3 at a concrete smoke detection with absent weather. -/
theorem smart_detection_confidence_monotone_witness :
    (0 : ℚ) ≤ (0.8 : ℚ) ∧
      ∃ r, smart_detection ⟨[⟨"smoke", 0.8, 0, 0, 0, 0⟩], 1, false, true, 0.8⟩
          "Yard" 12 none = .ok r ∧
        ∃ a : ℚ, r.predictions.map (fun q => q.adjusted_confidence) = [some a] ∧
          (pyLower "smoke" = "smoke" → a ≤ (0.8 : ℚ)) ∧
          (pyLower "smoke" = "fire" → a = (0.8 : ℚ)) := by
  have hadj : adjust_confidence "smoke" (0.8 : ℚ) none =
      .ok (0.8, "No weather context available") := rfl
  have heval := smart_detection_eval ⟨[⟨"smoke", 0.8, 0, 0, 0, 0⟩], 1, false, true, 0.8⟩
    ⟨"smoke", 0.8, 0, 0, 0, 0⟩ [] 12 "Yard" none 0.8 "No weather context available"
    (by decide) rfl hadj
  exact ⟨by norm_num, _, heval,
    smart_detection_confidence_monotone _ _ _ _ _ _ _ rfl (by decide) (by norm_num) heval⟩

set_option maxHeartbeats 1600000 in
lemma adjust_confidence_ok_eval (dc : String) (conf : ℚ) (weather : Weather)
    (h0 : conf ≠ 0) :
    ∃ s, adjust_confidence dc conf (some weather) =
      .ok (weather_adjusted dc conf weather, s) := by
  simp only [adjust_confidence, weather_adjusted]
  split_ifs <;> first | exact ⟨_, rfl⟩ | (exact absurd (by assumption) h0)

/-- C4: a smoke detection with raw confidence 0.9 under Fog, visibility 500,
humidity 90, temperature 5, at hour 6 in location Kitchen gets adjusted
confidence exactly 0.9 x 0.5 x 0.6 x 0.8 x 0.9 x 0.8 x 0.6: all six multipliers
compound multiplicatively. -/
theorem smart_detection_multilayer_compounding :
    ∃ r, smart_detection ⟨[⟨"smoke", 0.9, 0, 0, 0, 0⟩], 1, false, true, 0.9⟩
        "Kitchen" 6 (some ⟨"Fog", "fog", 5, 90, 500, "Bongao"⟩) = .ok r ∧
      r.predictions.map (fun q => q.adjusted_confidence) =
        [some (0.9 * 0.5 * 0.6 * 0.8 * 0.9 * 0.8 * 0.6)] := by
  have hsm : pyLower "smoke" = "smoke" := by decide
  have hkt : pyLower "Kitchen" = "kitchen" := by decide
  obtain ⟨s, hadj⟩ := adjust_confidence_ok_eval "smoke" (0.9 : ℚ)
    ⟨"Fog", "fog", 5, 90, 500, "Bongao"⟩ (by norm_num)
  refine ⟨_, smart_detection_eval _ ⟨"smoke", 0.9, 0, 0, 0, 0⟩ [] 6 "Kitchen" _
    (weather_adjusted "smoke" (0.9 : ℚ) ⟨"Fog", "fog", 5, 90, 500, "Bongao"⟩) s
    (by decide) rfl hadj, ?_⟩
  norm_num [layered_confidence, weather_adjusted, hsm, hkt]

/-- C7 counterexample: an input with two predictions is enriched into a result
whose predictions list holds only the first prediction; the second entry of the
original predictions sequence is lost. -/
theorem smart_detection_predictions_lost_counterexample :
    ∃ r, smart_detection
        ⟨[⟨"smoke", 0.9, 0, 0, 0, 0⟩, ⟨"fire", 0.8, 1, 1, 2, 2⟩], 2, true, true, 0.9⟩
        "Yard" 12 none = .ok r ∧
      r.predictions.map (fun q => q.pred) = [⟨"smoke", 0.9, 0, 0, 0, 0⟩] ∧
      r.predictions.length = 1 ∧
      (⟨[⟨"smoke", 0.9, 0, 0, 0, 0⟩, ⟨"fire", 0.8, 1, 1, 2, 2⟩], 2, true, true, 0.9⟩ :
        ImageResult).predictions.length = 2 := by
  have hadj : adjust_confidence "smoke" (0.9 : ℚ) none =
      .ok (0.9, "No weather context available") := rfl
  refine ⟨_, smart_detection_eval _ ⟨"smoke", 0.9, 0, 0, 0, 0⟩
    [⟨"fire", 0.8, 1, 1, 2, 2⟩] 12 "Yard" none 0.9 "No weather context available"
    (by decide) rfl hadj, by simp, by simp, by simp⟩

/-- C7 amended: enrichment preserves the scalar fields and, when no detection
is present, the predictions entries as well; but when a detection is present
the predictions field is replaced by a single-element list holding only the
first original prediction (with its original fields intact plus the three
added confidence fields), dropping every further prediction. -/
theorem smart_detection_enrichment_characterization
    (ir : ImageResult) (hour : Nat) (location : String) (weather : Option Weather) :
    (ir.count = 0 → ∃ r, smart_detection ir location hour weather = .ok r ∧
        r.predictions.map (fun q => q.pred) = ir.predictions ∧
        (∀ q ∈ r.predictions, q.original_confidence = none ∧
          q.adjusted_confidence = none ∧ q.confidence_change = none) ∧
        r.count = ir.count ∧ r.has_fire = ir.has_fire ∧ r.has_smoke = ir.has_smoke ∧
        r.max_confidence = ir.max_confidence ∧ r.alert = none ∧
        r.recommendation = none) ∧
      (∀ p rest r, ir.predictions = p :: rest → ir.count ≠ 0 →
        smart_detection ir location hour weather = .ok r →
        r.count = ir.count ∧ r.has_fire = ir.has_fire ∧ r.has_smoke = ir.has_smoke ∧
          r.max_confidence = ir.max_confidence ∧
          r.predictions.map (fun q => q.pred) = [p] ∧
          r.predictions.map (fun q => q.original_confidence) = [some p.confidence] ∧
          (r.predictions.map (fun q => q.adjusted_confidence)).length = 1 ∧
          r.alert.isSome = true ∧ r.recommendation.isSome = true) := by
  constructor
  · intro h0
    have hok : smart_detection ir location hour weather =
        .ok { predictions := ir.predictions.map (fun p => ⟨p, none, none, none⟩),
              count := ir.count, has_fire := ir.has_fire, has_smoke := ir.has_smoke,
              max_confidence := ir.max_confidence, alert := none,
              context := ⟨weather, hour, location, .noDetection⟩,
              recommendation := none } := by
      unfold smart_detection
      rw [if_pos h0]
    refine ⟨_, hok, ?_, ?_, rfl, rfl, rfl, rfl, rfl, rfl⟩
    · simp [Function.comp_def]
    · intro q hq
      obtain ⟨pp, -, rfl⟩ := List.mem_map.mp hq
      exact ⟨rfl, rfl, rfl⟩
  · intro p rest r hp hc h
    cases hadj : adjust_confidence p.«class» p.confidence weather with
    | error e =>
      unfold smart_detection at h
      rw [if_neg hc, hp] at h
      dsimp only at h
      rw [hadj] at h
      exact Except.noConfusion h
    | ok pr =>
      obtain ⟨a₀, wr⟩ := pr
      rw [smart_detection_eval ir p rest hour location weather a₀ wr hc hp hadj] at h
      have hr := (Except.ok.inj h).symm
      subst hr
      exact ⟨rfl, rfl, rfl, rfl, by simp, by simp, by simp, rfl, rfl⟩

/-- Witness for C7 amended: both branches at concrete inputs. -/
theorem smart_detection_enrichment_characterization_witness :
    (∃ r, smart_detection ⟨[⟨"fire", 0.7, 0, 0, 0, 0⟩], 0, false, false, 0⟩
        "Yard" 11 none = .ok r ∧
        r.predictions.map (fun q => q.pred) = [⟨"fire", 0.7, 0, 0, 0, 0⟩] ∧
        (∀ q ∈ r.predictions, q.original_confidence = none ∧
          q.adjusted_confidence = none ∧ q.confidence_change = none) ∧
        r.count = 0 ∧ r.has_fire = false ∧ r.has_smoke = false ∧
        r.max_confidence = 0 ∧ r.alert = none ∧ r.recommendation = none) ∧
      (∀ r, smart_detection ⟨[⟨"fire", 0.7, 0, 0, 0, 0⟩, ⟨"smoke", 0.5, 1, 1, 1, 1⟩],
          2, true, true, 0.7⟩ "Yard" 11 none = .ok r →
        r.count = 2 ∧ r.has_fire = true ∧ r.has_smoke = true ∧
          r.max_confidence = 0.7 ∧
          r.predictions.map (fun q => q.pred) = [⟨"fire", 0.7, 0, 0, 0, 0⟩] ∧
          r.predictions.map (fun q => q.original_confidence) = [some 0.7] ∧
          (r.predictions.map (fun q => q.adjusted_confidence)).length = 1 ∧
          r.alert.isSome = true ∧ r.recommendation.isSome = true) := by
  constructor
  · obtain ⟨r, h1, h2, h3, h4, h5, h6, h7, h8, h9⟩ :=
      (smart_detection_enrichment_characterization
        ⟨[⟨"fire", 0.7, 0, 0, 0, 0⟩], 0, false, false, 0⟩ 11 "Yard" none).1 rfl
    exact ⟨r, h1, h2, h3, h4, h5, h6, h7, h8, h9⟩
  · intro r h
    exact (smart_detection_enrichment_characterization
      ⟨[⟨"fire", 0.7, 0, 0, 0, 0⟩, ⟨"smoke", 0.5, 1, 1, 1, 1⟩], 2, true, true, 0.7⟩
      11 "Yard" none).2 ⟨"fire", 0.7, 0, 0, 0, 0⟩ [⟨"smoke", 0.5, 1, 1, 1, 1⟩] r rfl
      (by decide) h

/-- C9 counterexample: at the validated input class smoke, raw confidence 0 (a
value inside the unit interval) and a Fog weather context, the adjuster raises
`ZeroDivisionError` while building the reason string, so the operation is not
exception-free on all validated inputs. -/
theorem adjust_confidence_zero_division_counterexample :
    (0 : ℚ) ≤ 0 ∧ (0 : ℚ) ≤ 1 ∧
      adjust_confidence "smoke" 0 (some ⟨"Fog", "fog", 20, 50, 5000, "Bongao"⟩) =
        .error "float division by zero" := by
  have hsm : pyLower "smoke" = "smoke" := by decide
  refine ⟨le_refl 0, by norm_num, ?_⟩
  simp only [adjust_confidence, hsm]
  norm_num

set_option maxHeartbeats 1600000 in
/-- C9 amended: on every validated input with strictly positive raw confidence
(and on any class string and any weather context, present or absent) the
adjuster raises no exception and returns an adjusted-confidence and reason
pair; the division-by-zero branch is reachable only at raw confidence 0. -/
theorem adjust_confidence_total_on_positive (dc : String) (conf : ℚ)
    (w : Option Weather) (h : 0 < conf) :
    ∃ a r, adjust_confidence dc conf w = .ok (a, r) := by
  cases w with
  | none => exact ⟨conf, _, rfl⟩
  | some weather =>
    simp only [adjust_confidence]
    split_ifs <;> first | exact ⟨_, _, rfl⟩ | (exfalso; linarith)

/-- Witness for C9 amended at a concrete positive confidence. -/
theorem adjust_confidence_total_on_positive_witness :
    (0 : ℚ) < 1/2 ∧ ∃ a r, adjust_confidence "smoke" (1/2)
        (some ⟨"Fog", "fog", 5, 90, 500, "Bongao"⟩) = .ok (a, r) :=
  ⟨by norm_num, adjust_confidence_total_on_positive "smoke" (1/2) _ (by norm_num)⟩

/-- C2 counterexample: with a detection whose stored `max_confidence` is 0.9
(90 percent) and an enabled email channel with threshold 50, the spec rule
fires but `trigger_alerts` sends no email (it compares the raw 0.9 against 50
without the percent conversion); and with neither fire nor smoke detected, the
SMS path still fires on confidence alone, though the spec rule does not. -/
theorem trigger_alerts_percent_rule_counterexample :
    (spec_email_sms_rule true false true true (9/10) 50 ∧
      (trigger_alerts ⟨true, false, 9/10⟩ []
        (some ⟨true, some "user@example.com", 50, true, true⟩) none).emails = []) ∧
      (¬ spec_email_sms_rule false false true true 60 50 ∧
        (trigger_alerts ⟨false, false, 60⟩ [] none
          (some ⟨true, some "+15550100", 50⟩)).sms = ["+15550100"]) := by
  refine ⟨⟨?_, ?_⟩, ?_, ?_⟩
  · exact ⟨Or.inl ⟨rfl, rfl⟩, by norm_num⟩
  · simp only [trigger_alerts]
    norm_num
  · intro hrule
    rcases hrule.1 with ⟨hf, -⟩ | ⟨hs, -⟩
    · exact Bool.noConfusion hf
    · exact Bool.noConfusion hs
  · simp only [trigger_alerts]
    norm_num

/-- C2 amended: in `trigger_alerts` the email fires iff the channel is enabled
with an address and `(has_fire AND alert_for_fire) OR (has_smoke AND
alert_for_smoke)` holds with the stored `max_confidence` (not converted to a
percentage) at least `min_confidence`; the SMS fires iff the channel is enabled
with a phone number and the raw threshold comparison alone holds, with no
fire/smoke-flag check; the claimed percent-scale rule holds exactly for the
inline alert decision of `roboflow_detect` in app.py. -/
theorem trigger_alerts_decision_characterization (d : DetectionData)
    (webhooks : List Webhook) (es : EmailSettings) (ss : SmsSettings)
    (aff afs : Bool) (minc : ℚ) :
    ((trigger_alerts d webhooks (some es) (some ss)).emails ≠ [] ↔
      (es.enabled = true ∧ es.email_address ≠ none ∧
        d.max_confidence ≥ es.min_confidence ∧
        ((d.has_fire = true ∧ es.alert_for_fire = true) ∨
          (d.has_smoke = true ∧ es.alert_for_smoke = true)))) ∧
      ((trigger_alerts d webhooks (some es) (some ss)).sms ≠ [] ↔
        (ss.enabled = true ∧ ss.phone_number ≠ none ∧
          d.max_confidence ≥ ss.min_confidence)) ∧
      (roboflow_alert_decision d.has_fire d.has_smoke d.max_confidence aff afs minc =
          true ↔
        spec_email_sms_rule d.has_fire d.has_smoke aff afs d.max_confidence minc) := by
  refine ⟨?_, ?_, ?_⟩
  · simp only [trigger_alerts]
    cases hen : es.enabled
    · simp
    · by_cases hs : d.max_confidence ≥ es.min_confidence ∧
        ((d.has_fire = true ∧ es.alert_for_fire = true) ∨
          (d.has_smoke = true ∧ es.alert_for_smoke = true))
      · cases haddr : es.email_address <;> simp [hs, haddr] <;> tauto
      · simp [hs] <;> tauto
  · simp only [trigger_alerts]
    cases hen : ss.enabled
    · simp
    · by_cases hs : d.max_confidence ≥ ss.min_confidence
      · cases hph : ss.phone_number <;> simp [hs, hph]
      · simp [hs]
  · simp only [roboflow_alert_decision, spec_email_sms_rule]
    cases d.has_fire <;> cases d.has_smoke <;> cases aff <;> cases afs <;>
      simp [ge_iff_le, decide_eq_true_iff]

end FireDetection
